import Mathlib

/-!
Shallow embedding of the Odoo module `printing_custom`
(`src/addons/printing_custom/models/custom_order.py`, model
`printing.custom.order`).

Monetary values (Odoo `Float` fields) are modelled as `ℚ`; `Integer`
fields as `Int`; `Char`/`Binary`/`Text` fields as `Option String`
(`none` is Odoo's falsy "not set" value `False`); `Selection` fields as
`Option String`, except `state`, whose five declared values are the
inductive `St`.  A record is the structure `CustomOrder`; the linked
`product.product` record is embedded by value so that the related field
`base_price = product_id.list_price` can be read live.

The ORM write path is modelled explicitly: a write carries a set of
field values (`Vals`); each value is converted to the cache — for
`custom_text`, declared `fields.Char(size=50)`, the conversion slices
the string to its first 50 characters — then the values are applied,
the stored computed fields whose `@api.depends` dependencies were
touched are synchronously recomputed (`customization_fee` depends on
custom_text/design_file/size; `total_price` depends on
base_price/customization_fee/quantity), and the `@api.constrains`
checks of the fields present in the vals run in the order of the
model's constraint-method registry, which sorts the methods
alphabetically by name: `_check_custom_text_length` before
`_check_quantity`.  A raised `ValidationError` is the `error` case of
`Except String`; committing is modelled by `writeCommit` /
`createCommit`, which keep the previous state on error.
-/

/-- The five values of the `state` Selection field of
`printing.custom.order`. -/
inductive St where
  | draft
  | confirmed
  | production
  | done
  | cancel
  deriving DecidableEq, Repr

/-- The linked `product.product` record, embedded by value: only its
`list_price` is read by this module (through the related field
`base_price`). -/
structure ProductProduct where
  list_price : ℚ
  deriving DecidableEq, Repr

/-- One `printing.custom.order` record, with its stored fields.
`base_price` is a related (non-stored) field and is therefore a
function (`basePrice`), not a field.  `customization_fee` and
`total_price` are stored computed fields, so they are fields here and
the compute methods write them. -/
structure CustomOrder where
  name : String
  customer_id : Nat
  product_id : ProductProduct
  custom_text : Option String
  custom_color : Option String
  custom_color_code : Option String
  size : Option String
  design_file : Option String
  design_filename : Option String
  customization_fee : ℚ
  total_price : ℚ
  quantity : Int
  state : St
  notes : Option String
  deriving DecidableEq, Repr

/-- Python truthiness of an Odoo Char/Binary value: `False` (here
`none`) and the empty string are falsy, any other string is truthy. -/
def truthy : Option String → Bool
  | none => false
  | some s => s != ""

/-- `Char.convert_to_cache` for a Char field declared with a `size`
attribute: an incoming string value is sliced to its first `n`
characters (`value[:n]`) before it reaches the record's cache and the
VARCHAR(n) column; `False` stays `False`.  The only sized Char field
of this model is `custom_text`, declared `fields.Char(size=50)`. -/
def char_convert_to_cache (n : Nat) (v : Option String) : Option String :=
  v.map (fun t => String.mk (t.data.take n))

/-- The related field `base_price = product_id.list_price`, read live
from the linked product. -/
def basePrice (o : CustomOrder) : ℚ := o.product_id.list_price

/-- The lookup `size_fees.get(order.size, 0.0)` on the dict
`{'small': 0.0, 'medium': 5.0, 'large': 10.0, 'xlarge': 15.0}` from
`_compute_customization_fee`. -/
def size_fees (sz : Option String) : ℚ :=
  if sz = some "small" then 0
  else if sz = some "medium" then 5
  else if sz = some "large" then 10
  else if sz = some "xlarge" then 15
  else 0

/-- The body of the loop of `_compute_customization_fee`, as a function
of the three dependencies: start from `fee = 0.0`, add `5.0` if
`order.custom_text` is truthy, add `10.0` if `order.design_file` is
truthy, then add the size fee. -/
def computeFeeVal (ct df sz : Option String) : ℚ :=
  let fee : ℚ := 0
  let fee := if truthy ct then fee + 5 else fee
  let fee := if truthy df then fee + 10 else fee
  fee + size_fees sz

/-- `_compute_customization_fee` on one record: writes the computed fee
into the stored field `customization_fee`. -/
def _compute_customization_fee (o : CustomOrder) : CustomOrder :=
  { o with customization_fee := computeFeeVal o.custom_text o.design_file o.size }

/-- `_compute_total_price` on one record:
`order.total_price = (order.base_price + order.customization_fee) * order.quantity`. -/
def _compute_total_price (o : CustomOrder) : CustomOrder :=
  { o with total_price := (basePrice o + o.customization_fee) * (o.quantity : ℚ) }

/-- `@api.constrains('quantity') _check_quantity`: raise
`ValidationError('Quantity must be greater than 0!')` when
`order.quantity <= 0`. -/
def _check_quantity (o : CustomOrder) : Except String Unit :=
  if o.quantity ≤ 0 then Except.error "Quantity must be greater than 0!"
  else Except.ok ()

/-- `@api.constrains('custom_text') _check_custom_text_length`: raise
`ValidationError('Custom text cannot exceed 50 characters!')` when
`order.custom_text` is truthy and longer than 50 characters. -/
def _check_custom_text_length (o : CustomOrder) : Except String Unit :=
  match o.custom_text with
  | none => Except.ok ()
  | some t =>
    if t != "" ∧ t.length > 50 then
      Except.error "Custom text cannot exceed 50 characters!"
    else Except.ok ()

/-- A vals dict passed to `write`: `none` means the field is absent
from the dict.  For optional Char/Binary fields the value itself is an
`Option String` (`some none` writes Odoo's `False`).  The stored
computed fields `customization_fee` and `total_price` have no inverse
and are not writable. -/
structure Vals where
  name : Option String := none
  customer_id : Option Nat := none
  product_id : Option ProductProduct := none
  custom_text : Option (Option String) := none
  custom_color : Option (Option String) := none
  custom_color_code : Option (Option String) := none
  size : Option (Option String) := none
  design_file : Option (Option String) := none
  design_filename : Option (Option String) := none
  quantity : Option Int := none
  state : Option St := none
  notes : Option (Option String) := none
  deriving DecidableEq, Repr

/-- Apply a vals dict to a record: every field present in the dict is
converted to the cache and assigned — for `custom_text` the conversion
is the `size=50` slice of `char_convert_to_cache` — and every absent
field keeps its value. -/
def applyVals (o : CustomOrder) (v : Vals) : CustomOrder :=
  { o with
    name := v.name.getD o.name
    customer_id := v.customer_id.getD o.customer_id
    product_id := v.product_id.getD o.product_id
    custom_text := (v.custom_text.map (char_convert_to_cache 50)).getD o.custom_text
    custom_color := v.custom_color.getD o.custom_color
    custom_color_code := v.custom_color_code.getD o.custom_color_code
    size := v.size.getD o.size
    design_file := v.design_file.getD o.design_file
    design_filename := v.design_filename.getD o.design_filename
    quantity := v.quantity.getD o.quantity
    state := v.state.getD o.state
    notes := v.notes.getD o.notes }

/-- Whether a vals dict touches a dependency of
`_compute_customization_fee` (`@api.depends('custom_text',
'design_file', 'size')`). -/
def touchesFee (v : Vals) : Bool :=
  v.custom_text.isSome || v.design_file.isSome || v.size.isSome

/-- Whether a vals dict touches a dependency of `_compute_total_price`
(`@api.depends('base_price', 'customization_fee', 'quantity')`):
directly via `quantity` or via the related `base_price =
product_id.list_price`, or transitively because `customization_fee`
itself is to be recomputed. -/
def touchesTotal (v : Vals) : Bool :=
  v.product_id.isSome || v.quantity.isSome || touchesFee v

/-- The record produced by a write before constraint checking: vals
applied, then the stored computed fields whose dependencies were
touched are synchronously recomputed (fee before total, following the
dependency order). -/
def writeResult (o : CustomOrder) (v : Vals) : CustomOrder :=
  if touchesTotal v then
    _compute_total_price
      (if touchesFee v then _compute_customization_fee (applyVals o v) else applyVals o v)
  else
    if touchesFee v then _compute_customization_fee (applyVals o v) else applyVals o v

/-- The ORM `write` on one record: apply the vals (with cache
conversion), recompute the touched stored computed fields, then run
the constraint methods of the fields present in the vals, in the
registry's alphabetical method order (`_check_custom_text_length`
first, then `_check_quantity`).  A `ValidationError` aborts the
write. -/
def write (o : CustomOrder) (v : Vals) : Except String CustomOrder :=
  match (if v.custom_text.isSome then _check_custom_text_length (writeResult o v)
         else Except.ok ()) with
  | Except.error e => Except.error e
  | Except.ok _ =>
    match (if v.quantity.isSome then _check_quantity (writeResult o v) else Except.ok ()) with
    | Except.error e => Except.error e
    | Except.ok _ => Except.ok (writeResult o v)

/-- A vals dict passed to `create`: `customer_id` and `product_id` are
required, every other field may be omitted and then takes its declared
default (`name` → `'New'`, `custom_color` → `'white'`, `size` →
`'medium'`, `quantity` → `1`, `state` → `'draft'`, the rest unset). -/
structure CreateVals where
  name : Option String := none
  customer_id : Nat
  product_id : ProductProduct
  custom_text : Option String := none
  custom_color : Option String := none
  custom_color_code : Option String := none
  size : Option String := none
  design_file : Option String := none
  design_filename : Option String := none
  quantity : Option Int := none
  state : Option St := none
  notes : Option String := none
  deriving DecidableEq, Repr

/-- The Python expression `self.env['ir.sequence'].next_by_code(...) or 'New'`:
the sequence generator's answer if it is truthy, else the literal
`'New'`.  The generator yielding nothing is `none`. -/
def orNew : Option String → String
  | none => "New"
  | some s => if s = "" then "New" else s

/-- The reference chosen by the `create` override:
`if vals.get('name', 'New') == 'New': vals['name'] = next_by_code(...) or 'New'`. -/
def assignedName (seq : Option String) (n : Option String) : String :=
  if n.getD "New" = "New" then orNew seq else n.getD "New"

/-- The record built by `create` before constraint checking: the
reference chosen by the override, the other fields from the vals
(converted to the cache, so `custom_text` is sliced to 50 characters)
and the declared field defaults, and the stored computed fields
synchronously computed (fee before total). -/
def newRecord (seq : Option String) (v : CreateVals) : CustomOrder :=
  _compute_total_price (_compute_customization_fee
    { name := assignedName seq v.name
      customer_id := v.customer_id
      product_id := v.product_id
      custom_text := char_convert_to_cache 50 v.custom_text
      custom_color := some (v.custom_color.getD "white")
      custom_color_code := v.custom_color_code
      size := some (v.size.getD "medium")
      design_file := v.design_file
      design_filename := v.design_filename
      customization_fee := 0
      total_price := 0
      quantity := v.quantity.getD 1
      state := v.state.getD St.draft
      notes := v.notes })

/-- The ORM `create` with the module's override, parametrised by the
sequence generator's next value `seq`: build the new record with its
computed fields, then run both constraint methods in the registry's
alphabetical method order (`_check_custom_text_length` first, then
`_check_quantity`).  A `ValidationError` aborts the creation. -/
def create (seq : Option String) (v : CreateVals) : Except String CustomOrder :=
  match _check_custom_text_length (newRecord seq v) with
  | Except.error e => Except.error e
  | Except.ok _ =>
    match _check_quantity (newRecord seq v) with
    | Except.error e => Except.error e
    | Except.ok _ => Except.ok (newRecord seq v)

/-- The transactional view of a write: on success the new record is
committed, on a `ValidationError` the previously committed record is
kept and the message is reported. -/
def writeCommit (o : CustomOrder) (v : Vals) : CustomOrder × Option String :=
  match write o v with
  | Except.ok o2 => (o2, none)
  | Except.error e => (o, some e)

/-- The transactional view of a create against a table of committed
records: on success the new record is appended, on a `ValidationError`
the table is unchanged and the message is reported. -/
def createCommit (db : List CustomOrder) (seq : Option String) (v : CreateVals) :
    List CustomOrder × Option String :=
  match create seq v with
  | Except.ok o => (db ++ [o], none)
  | Except.error e => (db, some e)

/-- `action_confirm`: `self.write({'state': 'confirmed'}); return True`. -/
def action_confirm (o : CustomOrder) : Except String (CustomOrder × Bool) :=
  (write o { state := some St.confirmed }).map (fun o2 => (o2, true))

/-- `action_start_production`: `self.write({'state': 'production'}); return True`. -/
def action_start_production (o : CustomOrder) : Except String (CustomOrder × Bool) :=
  (write o { state := some St.production }).map (fun o2 => (o2, true))

/-- `action_mark_done`: `self.write({'state': 'done'}); return True`. -/
def action_mark_done (o : CustomOrder) : Except String (CustomOrder × Bool) :=
  (write o { state := some St.done }).map (fun o2 => (o2, true))

/-- `action_cancel`: `self.write({'state': 'cancel'}); return True`. -/
def action_cancel (o : CustomOrder) : Except String (CustomOrder × Bool) :=
  (write o { state := some St.cancel }).map (fun o2 => (o2, true))

/-- `action_reset_to_draft`: `self.write({'state': 'draft'}); return True`. -/
def action_reset_to_draft (o : CustomOrder) : Except String (CustomOrder × Bool) :=
  (write o { state := some St.draft }).map (fun o2 => (o2, true))

/-- The transition operation whose target is a given state (each of the
five states is the target of exactly one of the five actions). -/
def actionFor : St → CustomOrder → Except String (CustomOrder × Bool)
  | St.draft => action_reset_to_draft
  | St.confirmed => action_confirm
  | St.production => action_start_production
  | St.done => action_mark_done
  | St.cancel => action_cancel

/-- A record's stored computed fields agree with their compute methods
evaluated at the record's current dependencies. -/
def consistent (o : CustomOrder) : Prop :=
  o.customization_fee = computeFeeVal o.custom_text o.design_file o.size ∧
  o.total_price = (basePrice o + o.customization_fee) * (o.quantity : ℚ)

/-- The customization fee as the specification words it: the sum of a
text contribution (5.0 if custom_text is non-empty), a design-file
contribution (10.0 if a design file is present), and a size surcharge
from the fixed table, additive and independent. -/
def specFee (ct df sz : Option String) : ℚ :=
  (if truthy ct then 5 else 0) + (if truthy df then 10 else 0) +
    (if sz = some "small" then 0
     else if sz = some "medium" then 5
     else if sz = some "large" then 10
     else if sz = some "xlarge" then 15
     else 0)

/-- Concrete create vals: only the two required fields, everything else
defaulted. -/
def cvA : CreateVals := { customer_id := 1, product_id := { list_price := 20 } }

/-- Concrete create vals with a caller-supplied blank reference. -/
def cvBlank : CreateVals :=
  { name := some "", customer_id := 7, product_id := { list_price := 12 } }

/-- Concrete create vals with quantity 0. -/
def cvQ0 : CreateVals :=
  { customer_id := 3, product_id := { list_price := 5 }, quantity := some 0 }

/-- A 51-character string. -/
def longText : String := "AAAAAAAAAAAAAAAAAAAAAAAAAAAAAAAAAAAAAAAAAAAAAAAAAAA"

/-- A concrete committed order record. -/
def oB : CustomOrder :=
  { name := "PRINT/002"
    customer_id := 4
    product_id := { list_price := 10 }
    custom_text := none
    custom_color := some "white"
    custom_color_code := none
    size := some "medium"
    design_file := none
    design_filename := none
    customization_fee := 5
    total_price := 45
    quantity := 3
    state := St.draft
    notes := none }

/-- Concrete vals touching only `notes`. -/
def vNotes : Vals := { notes := some (some "rush order") }

/-- Concrete vals setting quantity to 0. -/
def vQ0 : Vals := { quantity := some 0 }

/-- Concrete vals setting quantity to 2. -/
def vQ2 : Vals := { quantity := some 2 }

/-- Concrete vals setting the 51-character custom text. -/
def vLong : Vals := { custom_text := some (some longText) }

/-- Concrete vals setting a new name. -/
def vName : Vals := { name := some "REWRITTEN" }

/-- Concrete create vals carrying the 51-character custom text. -/
def cvLong : CreateVals :=
  { customer_id := 5, product_id := { list_price := 8 }, custom_text := some longText }

/-- The first 50 characters of `longText` — what the `size=50` cache
conversion stores for it. -/
def longText50 : String := String.mk (longText.data.take 50)

/-! ## Helper lemmas -/

theorem write_state_only (o : CustomOrder) (s : St) :
    write o { state := some s } = Except.ok { o with state := s } := rfl

theorem write_ok_eq (o : CustomOrder) (v : Vals) (o2 : CustomOrder)
    (h : write o v = Except.ok o2) : o2 = writeResult o v := by
  unfold write at h
  split at h
  · exact absurd h (by simp)
  · split at h
    · exact absurd h (by simp)
    · exact (Except.ok.inj h).symm

theorem create_ok_eq (seq : Option String) (v : CreateVals) (o2 : CustomOrder)
    (h : create seq v = Except.ok o2) : o2 = newRecord seq v := by
  unfold create at h
  split at h
  · exact absurd h (by simp)
  · split at h
    · exact absurd h (by simp)
    · exact (Except.ok.inj h).symm

theorem check_quantity_error (o : CustomOrder) (e : String)
    (h : _check_quantity o = Except.error e) :
    o.quantity ≤ 0 ∧ e = "Quantity must be greater than 0!" := by
  unfold _check_quantity at h
  split at h
  · exact ⟨by assumption, (Except.error.inj h).symm⟩
  · exact absurd h (by simp)

theorem check_quantity_ok (o : CustomOrder) (h : 0 < o.quantity) :
    _check_quantity o = Except.ok () := by
  unfold _check_quantity
  rw [if_neg (by omega)]

theorem check_text_ok (o : CustomOrder)
    (h : ∀ t, o.custom_text = some t → t.length ≤ 50) :
    _check_custom_text_length o = Except.ok () := by
  unfold _check_custom_text_length
  split
  · rfl
  · rw [if_neg]
    rintro ⟨-, h2⟩
    exact absurd h2 (by simp [h _ (by assumption)])

theorem touchesFee_total (v : Vals) (h : touchesFee v = true) : touchesTotal v = true := by
  simp [touchesTotal, h]

theorem writeResult_quantity (o : CustomOrder) (v : Vals) :
    (writeResult o v).quantity = v.quantity.getD o.quantity := by
  unfold writeResult
  cases hf : touchesFee v <;> cases ht : touchesTotal v <;>
    simp [_compute_customization_fee, _compute_total_price, applyVals]

theorem writeResult_custom_text (o : CustomOrder) (v : Vals) :
    (writeResult o v).custom_text =
      (v.custom_text.map (char_convert_to_cache 50)).getD o.custom_text := by
  unfold writeResult
  cases hf : touchesFee v <;> cases ht : touchesTotal v <;>
    simp [_compute_customization_fee, _compute_total_price, applyVals]

theorem writeResult_name (o : CustomOrder) (v : Vals) :
    (writeResult o v).name = v.name.getD o.name := by
  unfold writeResult
  cases hf : touchesFee v <;> cases ht : touchesTotal v <;>
    simp [_compute_customization_fee, _compute_total_price, applyVals]

theorem newRecord_name (seq : Option String) (v : CreateVals) :
    (newRecord seq v).name = assignedName seq v.name := rfl

theorem newRecord_quantity (seq : Option String) (v : CreateVals) :
    (newRecord seq v).quantity = v.quantity.getD 1 := rfl

theorem newRecord_custom_text (seq : Option String) (v : CreateVals) :
    (newRecord seq v).custom_text = char_convert_to_cache 50 v.custom_text := rfl

theorem char_convert_length_le (n : Nat) (t : String) :
    (String.mk (t.data.take n)).length ≤ n := by
  show (t.data.take n).length ≤ n
  rw [List.length_take]
  omega

theorem check_text_writeResult_ok (o : CustomOrder) (v : Vals)
    (h : v.custom_text.isSome = true) :
    _check_custom_text_length (writeResult o v) = Except.ok () := by
  obtain ⟨ct, hct⟩ := Option.isSome_iff_exists.mp h
  apply check_text_ok
  intro t ht
  rw [writeResult_custom_text, hct] at ht
  cases ct with
  | none => simp [char_convert_to_cache] at ht
  | some s =>
    simp [char_convert_to_cache] at ht
    rw [← ht]
    exact char_convert_length_le 50 s

theorem check_text_newRecord_ok (seq : Option String) (v : CreateVals) :
    _check_custom_text_length (newRecord seq v) = Except.ok () := by
  apply check_text_ok
  intro t ht
  rw [newRecord_custom_text] at ht
  cases hc : v.custom_text with
  | none => rw [hc] at ht; simp [char_convert_to_cache] at ht
  | some s =>
    rw [hc] at ht
    simp [char_convert_to_cache] at ht
    rw [← ht]
    exact char_convert_length_le 50 s

theorem write_error_cases (o : CustomOrder) (v : Vals) (e : String)
    (h : write o v = Except.error e) :
    v.quantity.isSome = true ∧ (writeResult o v).quantity ≤ 0 ∧
      e = "Quantity must be greater than 0!" := by
  have htx : (if v.custom_text.isSome then _check_custom_text_length (writeResult o v)
      else Except.ok ()) = Except.ok () := by
    cases hc : v.custom_text.isSome with
    | false => rfl
    | true => exact check_text_writeResult_ok o v hc
  unfold write at h
  rw [htx] at h
  cases h2 : v.quantity.isSome with
  | false => rw [h2] at h; simp at h
  | true =>
    rw [h2] at h
    simp only [if_true] at h
    cases hchk : _check_quantity (writeResult o v) with
    | error e2 =>
      rw [hchk] at h
      simp only [Except.error.injEq] at h
      obtain ⟨hle, he⟩ := check_quantity_error _ _ hchk
      exact ⟨rfl, hle, h.symm.trans he⟩
    | ok u => rw [hchk] at h; simp at h

theorem create_error_cases (seq : Option String) (v : CreateVals) (e : String)
    (h : create seq v = Except.error e) :
    (newRecord seq v).quantity ≤ 0 ∧ e = "Quantity must be greater than 0!" := by
  unfold create at h
  rw [check_text_newRecord_ok seq v] at h
  cases hchk : _check_quantity (newRecord seq v) with
  | error e2 =>
    rw [hchk] at h
    simp only [Except.error.injEq] at h
    obtain ⟨hle, he⟩ := check_quantity_error _ _ hchk
    exact ⟨hle, h.symm.trans he⟩
  | ok u => rw [hchk] at h; simp at h

theorem orNew_ne_empty (seq : Option String) : orNew seq ≠ "" := by
  cases seq with
  | none => simp [orNew]
  | some s =>
    show (if s = "" then "New" else s) ≠ ""
    split
    · simp
    · assumption

theorem consistent_compute_pair (o : CustomOrder) :
    consistent (_compute_total_price (_compute_customization_fee o)) := ⟨rfl, rfl⟩

theorem consistent_newRecord (seq : Option String) (v : CreateVals) :
    consistent (newRecord seq v) := ⟨rfl, rfl⟩

theorem touchesFee_none (v : Vals) (hf : touchesFee v = false) :
    v.custom_text = none ∧ v.design_file = none ∧ v.size = none := by
  unfold touchesFee at hf
  refine ⟨?_, ?_, ?_⟩ <;>
    [cases h : v.custom_text; cases h : v.design_file; cases h : v.size] <;>
    first
      | rfl
      | (rw [h] at hf; simp at hf)

theorem touchesTotal_none (v : Vals) (ht : touchesTotal v = false) :
    v.product_id = none ∧ v.quantity = none ∧ touchesFee v = false := by
  unfold touchesTotal at ht
  refine ⟨?_, ?_, ?_⟩
  · cases h : v.product_id with
    | none => rfl
    | some x => rw [h] at ht; simp at ht
  · cases h : v.quantity with
    | none => rfl
    | some x => rw [h] at ht; simp at ht
  · cases h : touchesFee v with
    | false => rfl
    | true => rw [h] at ht; simp at ht

theorem consistent_writeResult (o : CustomOrder) (v : Vals) (h : consistent o) :
    consistent (writeResult o v) := by
  obtain ⟨hfee, htot⟩ := h
  unfold writeResult
  cases hf : touchesFee v with
  | true =>
    rw [touchesFee_total v hf]
    simp only [if_true]
    exact consistent_compute_pair (applyVals o v)
  | false =>
    obtain ⟨hct, hdf, hsz⟩ := touchesFee_none v hf
    simp only [Bool.false_eq_true, if_false]
    cases ht : touchesTotal v with
    | true =>
      simp only [if_true]
      refine ⟨?_, rfl⟩
      show (applyVals o v).customization_fee =
        computeFeeVal (applyVals o v).custom_text (applyVals o v).design_file
          (applyVals o v).size
      simp only [applyVals, hct, hdf, hsz, Option.getD_none]
      exact hfee
    | false =>
      obtain ⟨hp, hq, -⟩ := touchesTotal_none v ht
      constructor
      · show (applyVals o v).customization_fee =
          computeFeeVal (applyVals o v).custom_text (applyVals o v).design_file
            (applyVals o v).size
        simp only [applyVals, hct, hdf, hsz, Option.getD_none]
        exact hfee
      · show (applyVals o v).total_price =
          (basePrice (applyVals o v) + (applyVals o v).customization_fee) *
            ((applyVals o v).quantity : ℚ)
        simp only [applyVals, basePrice, hp, hq, Option.getD_none]
        exact htot

/-! ## Claim theorems -/

/-- Claim C1: the customization fee is a pure function of (custom_text,
design_file, size), equal to the sum of 5.0 if custom_text is
non-empty, 10.0 if a design file is present, and the size surcharge
(small 0.0, medium 5.0, large 10.0, xlarge 15.0, any other value 0.0);
the contributions are additive and independent, and the three example
fees of the specification hold. -/
theorem C1_customization_fee_additive :
    (∀ ct df sz, computeFeeVal ct df sz = specFee ct df sz) ∧
    computeFeeVal (some "") none (some "small") = 0 ∧
    computeFeeVal (some "Hi") none (some "small") = 5 ∧
    computeFeeVal (some "Hi") (some "ZGF0YQ==") (some "xlarge") = 30 := by
  refine ⟨?_, ?_, ?_, ?_⟩
  · intro ct df sz
    unfold computeFeeVal specFee size_fees
    cases hct : truthy ct <;> cases hdf : truthy df <;> simp [hct, hdf]
  · show (0 : ℚ) + 0 = 0
    norm_num
  · show (0 : ℚ) + 5 + 0 = 5
    norm_num
  · show (0 : ℚ) + 5 + 10 + 15 = 30
    norm_num

/-- Claim C3: each of the five transition actions succeeds from every
prior state with no guard, sets the state field to its fixed target
value and returns the success indicator True; consequently every state
is reachable from every other state in one transition. -/
theorem C3_transitions_unconditional :
    (∀ o : CustomOrder,
      (∃ o2, action_confirm o = Except.ok (o2, true) ∧ o2.state = St.confirmed) ∧
      (∃ o2, action_start_production o = Except.ok (o2, true) ∧ o2.state = St.production) ∧
      (∃ o2, action_mark_done o = Except.ok (o2, true) ∧ o2.state = St.done) ∧
      (∃ o2, action_cancel o = Except.ok (o2, true) ∧ o2.state = St.cancel) ∧
      (∃ o2, action_reset_to_draft o = Except.ok (o2, true) ∧ o2.state = St.draft)) ∧
    (∀ (o : CustomOrder) (t : St),
      ∃ o2, actionFor t o = Except.ok (o2, true) ∧ o2.state = t) := by
  constructor
  · intro o
    exact ⟨⟨_, rfl, rfl⟩, ⟨_, rfl, rfl⟩, ⟨_, rfl, rfl⟩, ⟨_, rfl, rfl⟩, ⟨_, rfl, rfl⟩⟩
  · intro o t
    cases t <;> exact ⟨_, rfl, rfl⟩

/-- Claim C10: each of the five transition actions modifies only the
state field: the record it commits is the prior record with just
`state` replaced, so every other field — including the stored
computed fields customization_fee and total_price, whose dependencies
do not include state — is unchanged. -/
theorem C10_transitions_frame (o : CustomOrder) :
    action_confirm o = Except.ok ({ o with state := St.confirmed }, true) ∧
    action_start_production o = Except.ok ({ o with state := St.production }, true) ∧
    action_mark_done o = Except.ok ({ o with state := St.done }, true) ∧
    action_cancel o = Except.ok ({ o with state := St.cancel }, true) ∧
    action_reset_to_draft o = Except.ok ({ o with state := St.draft }, true) :=
  ⟨rfl, rfl, rfl, rfl, rfl⟩

/-- Claim C2: for every order with positive quantity the recomputed
total price equals (base_price + customization_fee) * quantity, where
base_price is the linked product's list price read at computation time;
the record committed by any write that recomputes the total satisfies
the same formula. -/
theorem C2_total_price_formula (o : CustomOrder) (_hq : 0 < o.quantity) :
    (_compute_total_price o).total_price =
      (o.product_id.list_price + o.customization_fee) * (o.quantity : ℚ) ∧
    (∀ p : ProductProduct,
      (_compute_total_price { o with product_id := p }).total_price =
        (p.list_price + o.customization_fee) * (o.quantity : ℚ)) ∧
    (∀ v o2, write o v = Except.ok o2 → touchesTotal v = true →
      o2.total_price =
        (o2.product_id.list_price + o2.customization_fee) * (o2.quantity : ℚ)) := by
  refine ⟨rfl, fun p => rfl, fun v o2 hw ht => ?_⟩
  rw [write_ok_eq o v o2 hw]
  unfold writeResult
  rw [ht, if_pos rfl]
  simp [_compute_total_price, basePrice]

/-- Witness for C2 at a concrete order with quantity 3. -/
theorem C2_total_price_formula_witness :
    0 < oB.quantity ∧
    (_compute_total_price oB).total_price =
      (oB.product_id.list_price + oB.customization_fee) * (oB.quantity : ℚ) :=
  ⟨by decide, (C2_total_price_formula oB (by decide)).1⟩

/-- Claim C4: on creation a missing reference, or the sentinel "New",
is replaced by the Sequence Generator's next value for the fixed
sequence key; a generator that yields nothing falls back to the
literal "New" instead of failing the creation; a caller-supplied
reference other than "New" is kept unchanged. -/
theorem C4_reference_assignment :
    (∀ seq v o2, (v.name = none ∨ v.name = some "New") →
      create seq v = Except.ok o2 → o2.name = orNew seq) ∧
    (∀ s, s ≠ "" → orNew (some s) = s) ∧
    orNew none = "New" ∧
    (∀ seq v o2 r, v.name = some r → r ≠ "New" →
      create seq v = Except.ok o2 → o2.name = r) := by
  refine ⟨?_, ?_, rfl, ?_⟩
  · intro seq v o2 hn hc
    rw [create_ok_eq seq v o2 hc, newRecord_name]
    unfold assignedName
    rcases hn with h | h <;> rw [h] <;> simp
  · intro s hs
    show (if s = "" then "New" else s) = s
    rw [if_neg hs]
  · intro seq v o2 r hr hne hc
    rw [create_ok_eq seq v o2 hc, newRecord_name]
    unfold assignedName
    rw [hr]
    simp [hne]

/-- Witness for C4: creating with no caller-supplied reference while
the generator yields "PRINT/007" assigns that reference. -/
theorem C4_reference_assignment_witness :
    create (some "PRINT/007") cvA = Except.ok (newRecord (some "PRINT/007") cvA) ∧
    (newRecord (some "PRINT/007") cvA).name = "PRINT/007" := by
  refine ⟨rfl, ?_⟩
  have h := C4_reference_assignment.1 (some "PRINT/007") cvA
    (newRecord (some "PRINT/007") cvA) (Or.inl rfl) rfl
  rw [h]
  decide

/-- Claim C5: every write or create whose vals carry quantity ≤ 0 is
rejected with the validation failure "Quantity must be greater than
0!" (the absence of a partial commit is claim C8), and a write or
create whose quantity values are positive never raises this error. -/
theorem C5_quantity_validation :
    (∀ o v q, v.quantity = some q → q ≤ 0 →
      write o v = Except.error "Quantity must be greater than 0!") ∧
    (∀ seq v q, v.quantity = some q → q ≤ 0 →
      create seq v = Except.error "Quantity must be greater than 0!") ∧
    (∀ o v, (∀ q, v.quantity = some q → 0 < q) →
      write o v ≠ Except.error "Quantity must be greater than 0!") ∧
    (∀ seq v, (∀ q, v.quantity = some q → 0 < q) →
      create seq v ≠ Except.error "Quantity must be greater than 0!") := by
  refine ⟨?_, ?_, ?_, ?_⟩
  · intro o v q hq hle
    have hval : (writeResult o v).quantity ≤ 0 := by
      rw [writeResult_quantity, hq, Option.getD_some]
      exact hle
    have hchk : _check_quantity (writeResult o v) =
        Except.error "Quantity must be greater than 0!" := by
      unfold _check_quantity
      rw [if_pos hval]
    have htx : (if v.custom_text.isSome then _check_custom_text_length (writeResult o v)
        else Except.ok ()) = Except.ok () := by
      cases hc : v.custom_text.isSome with
      | false => rfl
      | true => exact check_text_writeResult_ok o v hc
    unfold write
    rw [htx, hq]
    show (match _check_quantity (writeResult o v) with
      | Except.error e => Except.error e
      | Except.ok _ => Except.ok (writeResult o v)) =
      Except.error "Quantity must be greater than 0!"
    rw [hchk]
  · intro seq v q hq hle
    have hval : (newRecord seq v).quantity ≤ 0 := by
      rw [newRecord_quantity, hq, Option.getD_some]
      exact hle
    have hchk : _check_quantity (newRecord seq v) =
        Except.error "Quantity must be greater than 0!" := by
      unfold _check_quantity
      rw [if_pos hval]
    unfold create
    rw [check_text_newRecord_ok seq v, hchk]
  · intro o v hpos hcontra
    obtain ⟨hsome, hle, -⟩ := write_error_cases o v _ hcontra
    obtain ⟨q, hq⟩ := Option.isSome_iff_exists.mp hsome
    rw [writeResult_quantity, hq, Option.getD_some] at hle
    have := hpos q hq
    omega
  · intro seq v hpos hcontra
    obtain ⟨hle, -⟩ := create_error_cases seq v _ hcontra
    rw [newRecord_quantity] at hle
    cases hq : v.quantity with
    | none => rw [hq, Option.getD_none] at hle; omega
    | some q =>
      rw [hq, Option.getD_some] at hle
      have := hpos q hq
      omega

/-- Witness for C5: a write of quantity 0 and a create with quantity 0
are rejected with the quantity message, and a write of quantity 2 is
not rejected with it. -/
theorem C5_quantity_validation_witness :
    write oB vQ0 = Except.error "Quantity must be greater than 0!" ∧
    create none cvQ0 = Except.error "Quantity must be greater than 0!" ∧
    write oB vQ2 ≠ Except.error "Quantity must be greater than 0!" :=
  ⟨C5_quantity_validation.1 oB vQ0 0 rfl (by decide),
    C5_quantity_validation.2.1 none cvQ0 0 rfl (by decide),
    C5_quantity_validation.2.2.1 oB vQ2
      (by intro q hq; injection hq with h; omega)⟩

/-- Claim C6: the code at the claim's failing inputs.  custom_text is
declared `fields.Char(size=50)`, so an over-long value is sliced to
its first 50 characters by the cache conversion before the constraint
`_check_custom_text_length` ever reads it: a write or a create
carrying a 51-character custom_text succeeds and commits the truncated
50-character text instead of being rejected with "Custom text cannot
exceed 50 characters!", and no write or create can ever raise that
message — the constraint is unreachable dead code. -/
theorem C6_truncation_defeats_constraint :
    50 < longText.length ∧
    longText50.length = 50 ∧
    write oB vLong = Except.ok (writeResult oB vLong) ∧
    (writeResult oB vLong).custom_text = some longText50 ∧
    create none cvLong = Except.ok (newRecord none cvLong) ∧
    (newRecord none cvLong).custom_text = some longText50 ∧
    (∀ o v, write o v ≠ Except.error "Custom text cannot exceed 50 characters!") ∧
    (∀ seq v, create seq v ≠ Except.error "Custom text cannot exceed 50 characters!") := by
  refine ⟨by decide, by decide, rfl, rfl, rfl, rfl, ?_, ?_⟩
  · intro o v h
    obtain ⟨-, -, he⟩ := write_error_cases o v _ h
    exact absurd he (by decide)
  · intro seq v h
    obtain ⟨-, he⟩ := create_error_cases seq v _ h
    exact absurd he (by decide)

/-- Claim C7: after every completed create or write the persisted
customization_fee and total_price agree with the compute methods
evaluated at the record's current inputs: creation establishes the
consistency invariant and every successful write preserves it, because
recomputation is synchronous and happens before the operation
completes — no committed state has a stale derived value. -/
theorem C7_derived_consistency :
    (∀ seq v o, create seq v = Except.ok o → consistent o) ∧
    (∀ o v o2, consistent o → write o v = Except.ok o2 → consistent o2) := by
  constructor
  · intro seq v o hc
    rw [create_ok_eq seq v o hc]
    exact consistent_newRecord seq v
  · intro o v o2 hcons hw
    rw [write_ok_eq o v o2 hw]
    exact consistent_writeResult o v hcons

/-- Witness for C7: the concretely created record is consistent, and a
notes-only write on it preserves consistency. -/
theorem C7_derived_consistency_witness :
    consistent (newRecord (some "PRINT/009") cvA) ∧
    consistent (writeResult (newRecord (some "PRINT/009") cvA) vNotes) := by
  have h1 := C7_derived_consistency.1 (some "PRINT/009") cvA
    (newRecord (some "PRINT/009") cvA) rfl
  exact ⟨h1, C7_derived_consistency.2 (newRecord (some "PRINT/009") cvA) vNotes
    (writeResult (newRecord (some "PRINT/009") cvA) vNotes) h1 rfl⟩

/-- Claim C8: writes and creates are atomic with respect to
validation: when a validation failure is raised the previously
committed state is left entirely unchanged, and on success the new
state is committed — every operation fully succeeds or fully fails
with no partial effects. -/
theorem C8_atomicity :
    (∀ o v e, (writeCommit o v).2 = some e → (writeCommit o v).1 = o) ∧
    (∀ o v o2, write o v = Except.ok o2 → writeCommit o v = (o2, none)) ∧
    (∀ db seq v e, (createCommit db seq v).2 = some e →
      (createCommit db seq v).1 = db) ∧
    (∀ db seq v o, create seq v = Except.ok o →
      createCommit db seq v = (db ++ [o], none)) := by
  refine ⟨?_, ?_, ?_, ?_⟩
  · intro o v e h
    unfold writeCommit at h ⊢
    cases hw : write o v with
    | ok o2 => rw [hw] at h; simp at h
    | error e2 => rfl
  · intro o v o2 h
    unfold writeCommit
    rw [h]
  · intro db seq v e h
    unfold createCommit at h ⊢
    cases hw : create seq v with
    | ok o2 => rw [hw] at h; simp at h
    | error e2 => rfl
  · intro db seq v o h
    unfold createCommit
    rw [h]

/-- Witness for C8: a quantity-0 write and a quantity-0 create fail
and leave the prior state unchanged; a notes-only write commits its
result. -/
theorem C8_atomicity_witness :
    (writeCommit oB vQ0).2 = some "Quantity must be greater than 0!" ∧
    (writeCommit oB vQ0).1 = oB ∧
    (createCommit [] none cvQ0).2 = some "Quantity must be greater than 0!" ∧
    (createCommit [] none cvQ0).1 = [] ∧
    writeCommit oB vNotes = (writeResult oB vNotes, none) :=
  ⟨rfl, C8_atomicity.1 oB vQ0 _ rfl, rfl, C8_atomicity.2.2.1 [] none cvQ0 _ rfl,
    C8_atomicity.2.1 oB vNotes _ rfl⟩

/-- Claim C9 counterexample: creating with the caller-supplied blank
reference "" keeps it — the reference of that committed record is
user-supplied and blank — and a write carrying the name field changes
a committed record's reference from "PRINT/002" to "REWRITTEN"; this
contradicts "never user-supplied", "never blank after creation" and
"no operation after creation changes the reference field". -/
theorem C9_counterexample :
    Except.map CustomOrder.name (create (some "PRINT/001") cvBlank) = Except.ok "" ∧
    oB.name = "PRINT/002" ∧
    Except.map CustomOrder.name (write oB vName) = Except.ok "REWRITTEN" :=
  ⟨rfl, rfl, rfl⟩

/-- Claim C9 (amended): the reference is assigned at creation: when the
caller supplies none or the sentinel "New" it comes from the sequence
generator (with fallback "New") and is then never blank; but a
caller-supplied reference other than "New" — even a blank one — is
kept.  The five transition operations never change the reference and
neither does a write whose vals do not contain the name field, while a
write that carries the name field replaces the reference with the
carried value (the field's readonly flag is presentation-level). -/
theorem C9_reference_immutability :
    (∀ seq v o2, (v.name = none ∨ v.name = some "New") →
      create seq v = Except.ok o2 → o2.name = orNew seq ∧ o2.name ≠ "") ∧
    (∀ seq v o2 r, v.name = some r → r ≠ "New" →
      create seq v = Except.ok o2 → o2.name = r) ∧
    (∀ o : CustomOrder,
      Except.map (fun p => p.1.name) (action_confirm o) = Except.ok o.name ∧
      Except.map (fun p => p.1.name) (action_start_production o) = Except.ok o.name ∧
      Except.map (fun p => p.1.name) (action_mark_done o) = Except.ok o.name ∧
      Except.map (fun p => p.1.name) (action_cancel o) = Except.ok o.name ∧
      Except.map (fun p => p.1.name) (action_reset_to_draft o) = Except.ok o.name) ∧
    (∀ o v o2, v.name = none → write o v = Except.ok o2 → o2.name = o.name) ∧
    (∀ o v o2 n, v.name = some n → write o v = Except.ok o2 → o2.name = n) := by
  refine ⟨?_, ?_, ?_, ?_, ?_⟩
  · intro seq v o2 hn hc
    rw [create_ok_eq seq v o2 hc, newRecord_name]
    unfold assignedName
    rcases hn with h | h <;> rw [h] <;> simp [orNew_ne_empty]
  · intro seq v o2 r hr hne hc
    rw [create_ok_eq seq v o2 hc, newRecord_name]
    unfold assignedName
    rw [hr]
    simp [hne]
  · intro o
    exact ⟨rfl, rfl, rfl, rfl, rfl⟩
  · intro o v o2 hn hw
    rw [write_ok_eq o v o2 hw, writeResult_name, hn, Option.getD_none]
  · intro o v o2 n hn hw
    rw [write_ok_eq o v o2 hw, writeResult_name, hn, Option.getD_some]

/-- Witness for C9 (amended): the blank user-supplied reference is
kept at creation, a notes-only write keeps the reference, and a
name-carrying write sets it to the carried value. -/
theorem C9_reference_immutability_witness :
    create (some "PRINT/004") cvBlank = Except.ok (newRecord (some "PRINT/004") cvBlank) ∧
    (newRecord (some "PRINT/004") cvBlank).name = "" ∧
    write oB vNotes = Except.ok (writeResult oB vNotes) ∧
    (writeResult oB vNotes).name = oB.name ∧
    write oB vName = Except.ok (writeResult oB vName) ∧
    (writeResult oB vName).name = "REWRITTEN" := by
  refine ⟨rfl, ?_, rfl, ?_, rfl, ?_⟩
  · exact C9_reference_immutability.2.1 (some "PRINT/004") cvBlank _ "" rfl (by decide) rfl
  · exact C9_reference_immutability.2.2.2.1 oB vNotes _ rfl rfl
  · exact C9_reference_immutability.2.2.2.2 oB vName _ "REWRITTEN" rfl rfl
